import Mathlib

/-!
Verification of the promxy server-group manager and proxy querier.

The development shallowly embeds the Go sources:
  * `servergroup/servergroup.go` — service-discovery reconciliation (`Sync`),
    config application (`ApplyConfig`), snapshot access (`State`) and the five
    query operations (`GetValue`, `Query`, `QueryRange`, `LabelValues`, `Series`);
  * `proxyquerier` — `Select`, `LabelValues`, `LabelNames`, `Close`.

External library behaviour (relabeling, client construction success/failure,
backend responses) is passed in as function parameters, so the embedded code is
exactly the repository's control flow over those calls.
-/

set_option autoImplicit false

namespace Promxy

/-! ## Label sets (model.LabelSet)

A Go `map[LabelName]LabelValue` is modelled as an association list in which the
first binding of a key gives its value. -/

abbrev LabelName := String
abbrev LabelValue := String
abbrev LabelSet := List (LabelName × LabelValue)

/-- Map lookup: `ls[n]` as an `Option` (Go returns the zero value "" on a miss,
callers below apply `.getD ""` where the Go code does an indexing read). -/
def lsGet (ls : LabelSet) (n : LabelName) : Option LabelValue :=
  (ls.find? (fun p => p.1 == n)).map (·.2)

/-- model.AddressLabel. -/
def addressLabel : String := "__address__"

/-- Embeds Go `strings.HasPrefix(s, pre)` (character-level prefix test). -/
def strHasPre (pre s : String) : Bool :=
  pre.data.isPrefixOf s.data

/-- model.ReservedLabelPrefix. -/
def reservedLabelPfx : String := "__"

/-- Embeds the deletion loop of `Sync` (servergroup.go:142-146): every key
with the reserved prefix is removed from the label set. -/
def stripReserved (ls : LabelSet) : LabelSet :=
  ls.filter (fun p => !(strHasPre reservedLabelPfx p.1))

/-- model.LabelSet.Merge: a copy of `ls` with the entries of `other` added,
`other` winning on a key collision. With first-binding lookup this is
`other ++ ls`. -/
def lsMerge (ls other : LabelSet) : LabelSet :=
  other ++ ls

/-! ## Configuration -/

/-- HTTP-level settings of the group config consumed by `ApplyConfig`
(TLS block, proxy, bearer/basic auth). The TLS settings are kept as one
value handed to the external `config_util.NewTLSConfig`. -/
structure HTTPClientConfig where
  tlsSettings : String
  proxyURL : String
  bearerToken : String
  bearerTokenFile : String
  /-- username, password, passwordFile -/
  basicAuth : Option (String × String × String)
  deriving DecidableEq, Repr

/-- The group `Config` fields read by `Sync` and `ApplyConfig`. The relabel
rule chain is represented by the relabel function it denotes, passed separately
to the reconciliation functions (the relabeling engine is external and pure). -/
structure Config where
  scheme : String
  pathPfx : String
  labels : LabelSet
  remoteRead : Bool
  ignoreError : Bool
  antiAffinity : String
  httpConfig : HTTPClientConfig
  dialTimeout : Int
  /-- the service-discovery configuration handed to the target manager -/
  hosts : String
  deriving DecidableEq, Repr

/-- Abbreviated rendering of the `url.URL{Scheme, Host, Path}` built in `Sync`;
it is only ever used as the opaque address handed to the external client
constructors. -/
def urlString (scheme host path : String) : String :=
  scheme ++ "://" ++ host ++ path

/-- Model of Go `path.Join` as used for the remote-read sub-path. -/
def pathJoin (a b : String) : String :=
  if a = "" then b else a ++ "/" ++ b

/-! ## Clients

The decorator chain built by `Sync` is recorded as data: a leaf v1 client or
remote-read client, wrapped by `AddLabelClient`, composed by `NewMultiAPI`,
optionally wrapped by `IgnoreErrorAPI`. -/

inductive APIClient where
  | promAPIV1 (address : String)
  | promAPIRemoteRead (address readPath : String)
  | addLabel (inner : APIClient) (ls : LabelSet)
  | multi (clients : List APIClient) (antiAffinity : String)
  | ignoreError (inner : APIClient)

/-- ServerGroupState: the published snapshot (servergroup.go:65-69). -/
structure ServerGroupState where
  Targets : List String
  apiClient : APIClient

/-! ## Discovery reconciliation (`Sync`, servergroup.go:92-173)

One discovery update is a map job-name ↦ target groups; each group carries a
list of target label sets. Client-construction outcomes of the external
`api.NewClient` / `remote.NewClient` are supplied as predicates on the URL
(in the Go code a construction error is a `panic`). -/

structure TargetGroup where
  Targets : List LabelSet

abbrev TargetGroupMap := List (String × List TargetGroup)

/-- The targets of one update in iteration order (the three nested `for`
loops of `Sync` only ever append, so they traverse this flattening). -/
def updateTargets (m : TargetGroupMap) : List LabelSet :=
  m.flatMap (fun kv => kv.2.flatMap TargetGroup.Targets)

/-- Outcome of the loop body for a single discovered target. -/
inductive TargetResult where
  | dropped
  | panicked
  | built (host : String) (client : APIClient)

/-- Embeds the per-target body of `Sync` (servergroup.go:101-149):
relabel; skip on nil; build the URL from the relabeled `__address__`; construct
the client (`panic` on failure); pick the remote-read variant when configured;
strip reserved labels; wrap with `AddLabelClient` merging the static labels. -/
def processTarget (cfg : Config) (relabelProc : LabelSet → Option LabelSet)
    (newClientOk remoteNewClientOk : String → Bool) (target : LabelSet) :
    TargetResult :=
  match relabelProc target with
  | none => .dropped
  | some t =>
    let host := (lsGet t addressLabel).getD ""
    let u := urlString cfg.scheme host cfg.pathPfx
    if newClientOk u then
      let attached := lsMerge (stripReserved t) cfg.labels
      if cfg.remoteRead then
        let readPath := pathJoin cfg.pathPfx "api/v1/read"
        if remoteNewClientOk (urlString cfg.scheme host readPath) then
          .built host (.addLabel (.promAPIRemoteRead (urlString cfg.scheme host readPath) readPath) attached)
        else .panicked
      else
        .built host (.addLabel (.promAPIV1 u) attached)
    else .panicked

/-- The two accumulation slices of `Sync` (`targets`, `apiClients`) over the
targets of one update; `none` is the `panic` outcome, which aborts the whole
round (and the process). In the Go code the host is appended to `targets`
just before client construction, but on a `panic` no state is published, so
only the success value is observable. -/
def syncTargets (cfg : Config) (relabelProc : LabelSet → Option LabelSet)
    (newClientOk remoteNewClientOk : String → Bool) :
    List LabelSet → Option (List String × List APIClient)
  | [] => some ([], [])
  | t :: rest =>
    match processTarget cfg relabelProc newClientOk remoteNewClientOk t with
    | .dropped => syncTargets cfg relabelProc newClientOk remoteNewClientOk rest
    | .panicked => none
    | .built h c =>
      match syncTargets cfg relabelProc newClientOk remoteNewClientOk rest with
      | none => none
      | some (hs, cs) => some (h :: hs, c :: cs)

/-- One iteration of the `Sync` loop: process every target of the update and
build the new `ServerGroupState` (servergroup.go:95-166). `none` means the
iteration panicked and nothing was published. -/
def syncOnce (cfg : Config) (relabelProc : LabelSet → Option LabelSet)
    (newClientOk remoteNewClientOk : String → Bool) (update : TargetGroupMap) :
    Option ServerGroupState :=
  match syncTargets cfg relabelProc newClientOk remoteNewClientOk (updateTargets update) with
  | none => none
  | some (ts, cs) =>
    let base := APIClient.multi cs cfg.antiAffinity
    some { Targets := ts
           apiClient := if cfg.ignoreError then .ignoreError base else base }

/-- The per-target clients composed into a snapshot's `apiClient`. -/
def snapshotClients (st : ServerGroupState) : List APIClient :=
  match st.apiClient with
  | .ignoreError (.multi cs _) => cs
  | .multi cs _ => cs
  | _ => []

/-- The label set carried by an `AddLabelClient` wrapper. -/
def attachedLabels : APIClient → LabelSet
  | .addLabel _ ls => ls
  | _ => []

def isAddLabel : APIClient → Bool
  | .addLabel _ _ => true
  | _ => false

/-! ## The reconciliation loop and the Ready channel (servergroup.go:92-173)

The loop consumes updates in order. Each iteration that completes stores a
snapshot and then, exactly when `loaded` is still false, sets it and closes
the `Ready` channel. A `panic` inside an iteration terminates the loop (and
the process): no close happens and no further update is processed. The result
records, per completed iteration, whether `close(s.Ready)` ran there. -/
def syncLoop (cfg : Config) (relabelProc : LabelSet → Option LabelSet)
    (newClientOk remoteNewClientOk : String → Bool) :
    List TargetGroupMap → Bool → List Bool
  | [], _ => []
  | u :: rest, loaded =>
    match syncOnce cfg relabelProc newClientOk remoteNewClientOk u with
    | none => []
    | some _ =>
      if loaded then
        false :: syncLoop cfg relabelProc newClientOk remoteNewClientOk rest loaded
      else
        true :: syncLoop cfg relabelProc newClientOk remoteNewClientOk rest true

/-! ## ApplyConfig (servergroup.go:176-217) -/

/-- The round-tripper chain built by `ApplyConfig`: the base `http.Transport`
(holding the TLS config produced by `config_util.NewTLSConfig`, the proxy URL
and the dialer timeout), optionally wrapped by a bearer-token, bearer-token-file
or basic-auth round tripper. -/
inductive RoundTripper where
  | transport (tlsConfig : String) (proxyURL : String) (dialTimeout : Int)
  | bearerAuth (token : String) (inner : RoundTripper)
  | bearerAuthFile (file : String) (inner : RoundTripper)
  | basicAuth (username password passwordFile : String) (inner : RoundTripper)
  deriving DecidableEq, Repr

structure HTTPClient where
  transport : RoundTripper
  deriving DecidableEq, Repr

/-- The mutable fields of `ServerGroup` observable by later operations:
`loaded`, `Cfg`, `Client` and the atomically stored snapshot (`state`).
A nil Go pointer or an empty `atomic.Value` is `none`. -/
structure ServerGroup where
  loaded : Bool
  Cfg : Option Config
  Client : Option HTTPClient
  state : Option ServerGroupState

/-- The state a `New()` server group starts in, before `ApplyConfig` and
before the first discovery round. -/
def newServerGroup : ServerGroup :=
  { loaded := false, Cfg := none, Client := none, state := none }

inductive ApplyConfigError where
  | tlsError (msg : String)
  | sdError (msg : String)
  deriving DecidableEq, Repr

/-- Embeds servergroup.go:186-209: the base transport from the TLS config,
then the bearer-token / bearer-token-file / basic-auth wrappers in source
order. -/
def buildRoundTripper (cfg : Config) (tlsConfig : String) : RoundTripper :=
  let rt := RoundTripper.transport tlsConfig cfg.httpConfig.proxyURL cfg.dialTimeout
  let rt :=
    if cfg.httpConfig.bearerToken.length > 0 then
      RoundTripper.bearerAuth cfg.httpConfig.bearerToken rt
    else if cfg.httpConfig.bearerTokenFile.length > 0 then
      RoundTripper.bearerAuthFile cfg.httpConfig.bearerTokenFile rt
    else rt
  match cfg.httpConfig.basicAuth with
  | some (u, p, f) => RoundTripper.basicAuth u p f rt
  | none => rt

/-- Embeds `ApplyConfig` (servergroup.go:176-217). The external outcomes are
parameters: `newTLSConfig` is `config_util.NewTLSConfig` on the TLS settings,
`sdApply` is `targetManager.ApplyConfig` on the discovery config (`some e` is
an error). Mirrors the source order: `s.Cfg = cfg` first; return on TLS error;
`s.Client` replaced; return on discovery error. -/
def applyConfig (newTLSConfig : String → Except String String)
    (sdApply : String → Option String) (s : ServerGroup) (cfg : Config) :
    ServerGroup × Option ApplyConfigError :=
  let s1 := { s with Cfg := some cfg }
  match newTLSConfig cfg.httpConfig.tlsSettings with
  | .error e => (s1, some (.tlsError e))
  | .ok tlsConfig =>
    let s2 := { s1 with Client := some { transport := buildRoundTripper cfg tlsConfig } }
    match sdApply cfg.hosts with
    | some e => (s2, some (.sdError e))
    | none => (s2, none)

/-! ## Snapshot access and the query operations (servergroup.go:219-251) -/

/-- Matcher (labels.Matcher): match type, label name, value. -/
structure Matcher where
  mtype : String
  name : String
  value : String
  deriving DecidableEq, Repr

/-- model.Sample; the numeric payload is irrelevant to the claims and kept
as an integer (a Go zero value is 0). -/
structure Sample where
  metric : LabelSet
  value : Int
  timestamp : Int

/-- model.Value, as far as the claims need it: a vector of samples or a
matrix of series. -/
inductive Value where
  | vector (samples : List Sample)
  | matrix (series : List (LabelSet × List (Int × Int)))

/-- Outcome of a query operation as seen from outside the process:
a value returned, an error returned, or a nil-pointer dereference
(a Go runtime panic — nothing is returned to the caller at all). -/
inductive QueryOutcome (α : Type) where
  | ok (v : α)
  | err (e : String)
  | nilPanic

/-- Behaviour of the composed `promclient.API` (external code): responses of
the snapshot's client for each of the five operations. -/
structure ClientSem where
  getValueC : APIClient → Int → Int → List Matcher → QueryOutcome Value
  queryC : APIClient → String → Int → QueryOutcome Value
  queryRangeC : APIClient → String → Int → Int → Int → QueryOutcome Value
  labelValuesC : APIClient → String → QueryOutcome (List String)
  seriesC : APIClient → List String → Int → Int → QueryOutcome (List LabelSet)

/-- `State()` (servergroup.go:219-226): the stored snapshot, or `nil` when the
atomic value holds nothing yet (the type assertion fails on an empty value). -/
def sgCurrentState (s : ServerGroup) : Option ServerGroupState :=
  s.state

/-- `GetValue` (servergroup.go:229-231): `s.State().apiClient.GetValue(...)` —
when `State()` is nil, the field selection dereferences a nil pointer. -/
def sgGetValue (sem : ClientSem) (s : ServerGroup) (startT endT : Int)
    (matchers : List Matcher) : QueryOutcome Value :=
  match sgCurrentState s with
  | none => .nilPanic
  | some st => sem.getValueC st.apiClient startT endT matchers

/-- `Query` (servergroup.go:234-236). -/
def sgQuery (sem : ClientSem) (s : ServerGroup) (query : String) (ts : Int) :
    QueryOutcome Value :=
  match sgCurrentState s with
  | none => .nilPanic
  | some st => sem.queryC st.apiClient query ts

/-- `QueryRange` (servergroup.go:239-241); the range is start, end, step. -/
def sgQueryRange (sem : ClientSem) (s : ServerGroup) (query : String)
    (startT endT step : Int) : QueryOutcome Value :=
  match sgCurrentState s with
  | none => .nilPanic
  | some st => sem.queryRangeC st.apiClient query startT endT step

/-- `LabelValues` (servergroup.go:244-246). -/
def sgLabelValues (sem : ClientSem) (s : ServerGroup) (label : String) :
    QueryOutcome (List String) :=
  match sgCurrentState s with
  | none => .nilPanic
  | some st => sem.labelValuesC st.apiClient label

/-- `Series` (servergroup.go:249-251). -/
def sgSeries (sem : ClientSem) (s : ServerGroup) (matcherStrings : List String)
    (startT endT : Int) : QueryOutcome (List LabelSet) :=
  match sgCurrentState s with
  | none => .nilPanic
  | some st => sem.seriesC st.apiClient matcherStrings startT endT

/-! ## The proxy querier (proxyquerier: Select, LabelValues, LabelNames, Close)

Times are modelled as millisecond timestamps (`timestamp.Time` is then the
identity). Errors are strings; `errors.Cause` on them is the identity. -/

/-- Responses of the querier's underlying `promclient.API`. -/
structure QuerierClient where
  seriesResp : List String → Int → Int → Except String (List LabelSet)
  getValueResp : Int → Int → List Matcher → Except String Value
  labelValuesResp : String → Except String (List String)

/-- ProxyQuerier: construction-time window and the shared underlying client. -/
structure ProxyQuerier where
  startT : Int
  endT : Int
  client : QuerierClient

/-- storage.SelectParams, as far as `Select` reads it: start and end (ms). -/
structure SelectParams where
  startMs : Int
  endMs : Int
  deriving DecidableEq, Repr

/-- The downstream call `Select` issues on the client. -/
inductive ClientCall where
  | seriesCall (matchers : List String) (startT endT : Int)
  | getValueCall (startT endT : Int) (matchers : List Matcher)

def callIsSeries : ClientCall → Bool
  | .seriesCall _ _ _ => true
  | _ => false

def callTimes : ClientCall → Int × Int
  | .seriesCall _ s e => (s, e)
  | .getValueCall s e _ => (s, e)

/-- Embeds `ProxyQuerier.Select`. `matcherToString` is the external
`promhttputil.MatcherToString`. With nil select parameters: matchers are
stringified, `Series` is called with the querier's own window, and each
returned label set becomes a zero-point sample (`model.Sample{Metric: ls}`,
value and timestamp left at their zero values). Otherwise `GetValue` is called
with the request's start/end and the matchers. The issued call is returned
alongside the resulting value. -/
def pqSelect (h : ProxyQuerier)
    (matcherToString : List Matcher → Except String String)
    (selectParams : Option SelectParams) (matchers : List Matcher) :
    Except String (ClientCall × Value) :=
  match selectParams with
  | none =>
    match matcherToString matchers with
    | .error e => .error e
    | .ok matcherString =>
      match h.client.seriesResp [matcherString] h.startT h.endT with
      | .error e => .error e
      | .ok labelsets =>
        .ok (.seriesCall [matcherString] h.startT h.endT,
             .vector (labelsets.map (fun ls => { metric := ls, value := 0, timestamp := 0 })))
  | some sp =>
    match h.client.getValueResp sp.startMs sp.endMs matchers with
    | .error e => .error e
    | .ok v => .ok (.getValueCall sp.startMs sp.endMs matchers, v)

/-- `ProxyQuerier.LabelValues`: delegate, unwrap errors, stringify values. -/
def pqLabelValues (h : ProxyQuerier) (name : String) :
    Except String (List String) :=
  h.client.labelValuesResp name

/-- `ProxyQuerier.LabelNames` (part_000:107-109): always the error
"Not implemented yet". -/
def pqLabelNames (_h : ProxyQuerier) : Except String (List String) :=
  .error "Not implemented yet"

/-- `ProxyQuerier.Close` (part_000:113): returns nil and touches nothing. -/
def pqClose (h : ProxyQuerier) : Option String × ProxyQuerier :=
  (none, h)

/-- `n` consecutive `Close` calls: the list of returned errors and the final
querier. -/
def pqCloseN : Nat → ProxyQuerier → List (Option String) × ProxyQuerier
  | 0, h => ([], h)
  | n + 1, h =>
    let r := pqClose h
    let rest := pqCloseN n r.2
    (r.1 :: rest.1, rest.2)

/-! ## Concrete fixtures used by witnesses -/

def constClient : QuerierClient :=
  { seriesResp := fun _ _ _ => .ok [[("job", "a")]]
    getValueResp := fun _ _ _ => .ok (.vector [])
    labelValuesResp := fun _ => .ok [] }

def pq0 : ProxyQuerier :=
  { startT := 10, endT := 20, client := constClient }

def mts0 : List Matcher → Except String String := fun _ => .ok "m"

/-! ## Claims about the proxy querier -/

/-- Claim C5 (confirmed): with nil select parameters, Select stringifies the
matchers, issues a `Series` call, and yields one zero-point series per
returned label set (in order); with select parameters present it issues a
`GetValue` call with the request's start and end timestamps and the matchers,
yielding that call's value. -/
theorem c5_select_mode_dispatch (h : ProxyQuerier)
    (mts : List Matcher → Except String String) (matchers : List Matcher)
    (s : String) (lss : List LabelSet) (sp : SelectParams) (v : Value) :
    (mts matchers = .ok s →
      h.client.seriesResp [s] h.startT h.endT = .ok lss →
      pqSelect h mts none matchers =
        .ok (.seriesCall [s] h.startT h.endT,
          .vector (lss.map (fun ls => { metric := ls, value := 0, timestamp := 0 })))) ∧
    (h.client.getValueResp sp.startMs sp.endMs matchers = .ok v →
      pqSelect h mts (some sp) matchers =
        .ok (.getValueCall sp.startMs sp.endMs matchers, v)) := by
  constructor
  · intro h1 h2
    simp [pqSelect, h1, h2]
  · intro h1
    simp [pqSelect, h1]

theorem c5_select_mode_dispatch_witness :
    pqSelect pq0 mts0 none [] =
      .ok (.seriesCall ["m"] 10 20,
        .vector [{ metric := [("job", "a")], value := 0, timestamp := 0 }]) ∧
    pqSelect pq0 mts0 (some { startMs := 1, endMs := 2 }) [] =
      .ok (.getValueCall 1 2 [], .vector []) := by
  constructor
  · exact (c5_select_mode_dispatch pq0 mts0 [] "m" [[("job", "a")]]
      { startMs := 1, endMs := 2 } (.vector [])).1 rfl rfl
  · exact (c5_select_mode_dispatch pq0 mts0 [] "m" [[("job", "a")]]
      { startMs := 1, endMs := 2 } (.vector [])).2 rfl

/-- Claim C10 (confirmed): in metadata mode (nil select parameters) the call
Select issues is a `Series` call whose time range is the querier's own
construction-time start and end. -/
theorem c10_metadata_mode_window (h : ProxyQuerier)
    (mts : List Matcher → Except String String) (matchers : List Matcher)
    (res : ClientCall × Value)
    (hok : pqSelect h mts none matchers = .ok res) :
    callIsSeries res.1 = true ∧ callTimes res.1 = (h.startT, h.endT) := by
  simp only [pqSelect] at hok
  split at hok
  · exact Except.noConfusion hok
  · split at hok
    · exact Except.noConfusion hok
    · injection hok with h1
      rw [← h1]
      exact ⟨rfl, rfl⟩

theorem c10_metadata_mode_window_witness :
    callIsSeries (ClientCall.seriesCall ["m"] 10 20) = true ∧
    callTimes (ClientCall.seriesCall ["m"] 10 20) = (10, 20) :=
  c10_metadata_mode_window pq0 mts0 []
    (ClientCall.seriesCall ["m"] 10 20,
      Value.vector [{ metric := [("job", "a")], value := 0, timestamp := 0 }]) rfl

/-- Claim C8 (confirmed): `LabelNames` always fails with the
"Not implemented yet" error; it never returns a successful (empty) list. -/
theorem c8_labelNames_always_fails (h : ProxyQuerier) :
    pqLabelNames h = .error "Not implemented yet" :=
  rfl

/-- Claim C9 (confirmed): any number of consecutive `Close` calls each return
no error, and the querier — including its shared underlying client — is left
unchanged. -/
theorem c9_close_idempotent (n : Nat) (h : ProxyQuerier) :
    pqCloseN n h = (List.replicate n none, h) := by
  induction n with
  | zero => rfl
  | succ n ih => simp [pqCloseN, pqClose, ih, List.replicate]

/-! ## Claims about snapshot access before the first discovery round (C3) -/

def okSem : ClientSem :=
  { getValueC := fun _ _ _ _ => .ok (.vector [])
    queryC := fun _ _ _ => .ok (.vector [])
    queryRangeC := fun _ _ _ _ _ => .ok (.vector [])
    labelValuesC := fun _ _ => .ok []
    seriesC := fun _ _ _ _ => .ok [] }

/-- Claim C3 (counterexample): on a freshly created server group, before any
snapshot has been published, every one of the five query operations ends in a
nil-pointer dereference — a runtime panic — and not in a NotReadyError value
returned to the caller. -/
theorem c3_counterexample :
    sgGetValue okSem newServerGroup 0 1 [] = .nilPanic ∧
    sgQuery okSem newServerGroup "up" 0 = .nilPanic ∧
    sgQueryRange okSem newServerGroup "up" 0 1 1 = .nilPanic ∧
    sgLabelValues okSem newServerGroup "job" = .nilPanic ∧
    sgSeries okSem newServerGroup [] 0 1 = .nilPanic :=
  ⟨rfl, rfl, rfl, rfl, rfl⟩

/-- Claim C3 (amended, proved): before the first discovery round publishes a
snapshot, `State()` yields the nil not-ready indicator, and every query
operation dereferences that nil snapshot: the outcome is a nil-pointer panic,
not a NotReadyError returned to the caller. -/
theorem c3_not_ready_query_panics (sem : ClientSem) (s : ServerGroup)
    (startT endT ts step : Int) (matchers : List Matcher)
    (q label : String) (ms : List String)
    (hs : s.state = none) :
    sgCurrentState s = none ∧
    sgGetValue sem s startT endT matchers = .nilPanic ∧
    sgQuery sem s q ts = .nilPanic ∧
    sgQueryRange sem s q startT endT step = .nilPanic ∧
    sgLabelValues sem s label = .nilPanic ∧
    sgSeries sem s ms startT endT = .nilPanic := by
  simp [sgCurrentState, sgGetValue, sgQuery, sgQueryRange, sgLabelValues,
    sgSeries, hs]

theorem c3_not_ready_query_panics_witness :
    sgCurrentState newServerGroup = none ∧
    sgGetValue okSem newServerGroup 2 3 [] = .nilPanic ∧
    sgQuery okSem newServerGroup "up" 4 = .nilPanic ∧
    sgQueryRange okSem newServerGroup "up" 2 3 5 = .nilPanic ∧
    sgLabelValues okSem newServerGroup "instance" = .nilPanic ∧
    sgSeries okSem newServerGroup ["m"] 2 3 = .nilPanic :=
  c3_not_ready_query_panics okSem newServerGroup 2 3 4 5 [] "up" "instance" ["m"] rfl

/-! ## Claims about ApplyConfig (C2) -/

def httpCfgA : HTTPClientConfig :=
  { tlsSettings := "tls-a", proxyURL := "", bearerToken := "",
    bearerTokenFile := "", basicAuth := none }

def cfgA : Config :=
  { scheme := "http", pathPfx := "", labels := [], remoteRead := false,
    ignoreError := false, antiAffinity := "", httpConfig := httpCfgA,
    dialTimeout := 200, hosts := "static-a" }

def cfgB : Config :=
  { cfgA with scheme := "https", hosts := "static-b" }

/-- A manager that already holds an active config and transport. -/
def sgOld : ServerGroup :=
  { loaded := true, Cfg := some cfgA,
    Client := some { transport := .transport "tls-a-built" "" 200 },
    state := none }

/-- Claim C2 (counterexample): applying a config whose TLS construction fails
to a manager that already holds an active config returns an error, yet the
manager's `Cfg` now holds the new config — the previously active config does
not remain in effect. -/
theorem c2_counterexample :
    (applyConfig (fun _ => .error "bad tls") (fun _ => none) sgOld cfgB).2 =
      some (.tlsError "bad tls") ∧
    (applyConfig (fun _ => .error "bad tls") (fun _ => none) sgOld cfgB).1.Cfg =
      some cfgB ∧
    ((some cfgB == sgOld.Cfg : Bool)) = false := by
  refine ⟨rfl, rfl, ?_⟩
  decide

/-- Claim C2 (amended, proved): a failed `ApplyConfig` leaves the manager
partially updated: `Cfg` already holds the new config in every failure case;
the transport is the old one exactly when TLS construction failed, and has
already been replaced by the new one when the discovery subscription failed.
The readiness flag and the published snapshot are untouched. -/
theorem c2_applyConfig_failure_partial_update
    (newTLSConfig : String → Except String String)
    (sdApply : String → Option String) (s : ServerGroup) (cfg : Config)
    (err : ApplyConfigError)
    (hf : (applyConfig newTLSConfig sdApply s cfg).2 = some err) :
    (applyConfig newTLSConfig sdApply s cfg).1.Cfg = some cfg ∧
    (applyConfig newTLSConfig sdApply s cfg).1.loaded = s.loaded ∧
    (applyConfig newTLSConfig sdApply s cfg).1.state = s.state ∧
    (applyConfig newTLSConfig sdApply s cfg).1.Client =
      (match newTLSConfig cfg.httpConfig.tlsSettings with
       | .error _ => s.Client
       | .ok tlsConfig => some { transport := buildRoundTripper cfg tlsConfig }) := by
  cases htls : newTLSConfig cfg.httpConfig.tlsSettings with
  | error e => simp [applyConfig, htls]
  | ok tlsConfig =>
    cases hsd : sdApply cfg.hosts with
    | none => simp [applyConfig, htls, hsd] at hf
    | some e => simp [applyConfig, htls, hsd]

theorem c2_applyConfig_failure_partial_update_witness :
    (applyConfig (fun _ => .error "bad tls") (fun _ => none) sgOld cfgB).1.Cfg =
      some cfgB ∧
    (applyConfig (fun _ => .error "bad tls") (fun _ => none) sgOld cfgB).1.loaded =
      sgOld.loaded ∧
    (applyConfig (fun _ => .error "bad tls") (fun _ => none) sgOld cfgB).1.state =
      sgOld.state ∧
    (applyConfig (fun _ => .error "bad tls") (fun _ => none) sgOld cfgB).1.Client =
      sgOld.Client :=
  c2_applyConfig_failure_partial_update (fun _ => .error "bad tls") (fun _ => none)
    sgOld cfgB (.tlsError "bad tls") rfl

/-! ## Helper lemmas about the reconciliation round -/

/-- A per-target loop body ends in one of three shapes: dropped by relabeling,
panicked on client construction, or built with the resolved address as its
host and an `AddLabelClient` wrapper carrying the stripped-and-merged label
set. -/
theorem processTarget_shape (cfg : Config) (rp : LabelSet → Option LabelSet)
    (nOk rOk : String → Bool) (t : LabelSet) :
    (processTarget cfg rp nOk rOk t = .dropped ∧ rp t = none) ∨
    processTarget cfg rp nOk rOk t = .panicked ∨
    (∃ t2 inner, rp t = some t2 ∧
      processTarget cfg rp nOk rOk t =
        .built ((lsGet t2 addressLabel).getD "")
          (.addLabel inner (lsMerge (stripReserved t2) cfg.labels))) := by
  unfold processTarget
  cases hrp : rp t with
  | none => exact .inl ⟨rfl, rfl⟩
  | some t2 =>
    refine .inr ?_
    by_cases h1 :
        nOk (urlString cfg.scheme ((lsGet t2 addressLabel).getD "") cfg.pathPfx) = true
    · cases hrr : cfg.remoteRead with
      | true =>
        by_cases h2 : rOk (urlString cfg.scheme ((lsGet t2 addressLabel).getD "")
            (pathJoin cfg.pathPfx "api/v1/read")) = true
        · exact .inr ⟨t2,
            .promAPIRemoteRead
              (urlString cfg.scheme ((lsGet t2 addressLabel).getD "")
                (pathJoin cfg.pathPfx "api/v1/read"))
              (pathJoin cfg.pathPfx "api/v1/read"),
            rfl, by simp [h1, hrr, h2]⟩
        · exact .inl (by simp [h1, hrr, h2])
      | false =>
        exact .inr ⟨t2,
          .promAPIV1 (urlString cfg.scheme ((lsGet t2 addressLabel).getD "") cfg.pathPfx),
          rfl, by simp [h1, hrr]⟩
    · exact .inl (by simp [h1])

/-- On a round that does not panic, the accumulated host list is exactly the
ordered list of resolved addresses of the relabeled, non-dropped targets
(duplicates included), and one client is accumulated per host. -/
theorem syncTargets_characterization (cfg : Config)
    (rp : LabelSet → Option LabelSet) (nOk rOk : String → Bool)
    (ts : List LabelSet) (hs : List String) (cs : List APIClient)
    (h : syncTargets cfg rp nOk rOk ts = some (hs, cs)) :
    hs = ts.filterMap (fun t => (rp t).map (fun t2 => (lsGet t2 addressLabel).getD "")) ∧
    cs.length = hs.length := by
  induction ts generalizing hs cs with
  | nil =>
    simp only [syncTargets, Option.some.injEq, Prod.mk.injEq] at h
    obtain ⟨h1, h2⟩ := h
    subst h1; subst h2
    simp
  | cons t rest ih =>
    simp only [syncTargets] at h
    rcases processTarget_shape cfg rp nOk rOk t with ⟨hp, hrp⟩ | hp | ⟨t2, inner, hrp, hp⟩
    · rw [hp] at h
      simpa [hrp] using ih hs cs h
    · rw [hp] at h
      exact Option.noConfusion h
    · rw [hp] at h
      cases hrest : syncTargets cfg rp nOk rOk rest with
      | none => rw [hrest] at h; exact Option.noConfusion h
      | some p =>
        obtain ⟨hs1, cs1⟩ := p
        rw [hrest] at h
        simp only [Option.some.injEq, Prod.mk.injEq] at h
        obtain ⟨h1, h2⟩ := h
        subst h1; subst h2
        obtain ⟨ih1, ih2⟩ := ih hs1 cs1 hrest
        simp [hrp, ih1, ih2]

/-- Every client accumulated by a non-panicking round is an `AddLabelClient`
wrapper whose attached label set is the stripped relabeled target label set
merged with the configured static labels. -/
theorem syncTargets_clients_shape (cfg : Config)
    (rp : LabelSet → Option LabelSet) (nOk rOk : String → Bool)
    (ts : List LabelSet) (hs : List String) (cs : List APIClient)
    (h : syncTargets cfg rp nOk rOk ts = some (hs, cs))
    (c : APIClient) (hc : c ∈ cs) :
    ∃ t2 inner, c = .addLabel inner (lsMerge (stripReserved t2) cfg.labels) := by
  induction ts generalizing hs cs with
  | nil =>
    simp only [syncTargets, Option.some.injEq, Prod.mk.injEq] at h
    obtain ⟨_, h2⟩ := h
    subst h2
    exact absurd hc (List.not_mem_nil c)
  | cons t rest ih =>
    simp only [syncTargets] at h
    rcases processTarget_shape cfg rp nOk rOk t with ⟨hp, _⟩ | hp | ⟨t2, inner, _, hp⟩
    · rw [hp] at h
      exact ih hs cs h hc
    · rw [hp] at h
      exact Option.noConfusion h
    · rw [hp] at h
      cases hrest : syncTargets cfg rp nOk rOk rest with
      | none => rw [hrest] at h; exact Option.noConfusion h
      | some p =>
        obtain ⟨hs1, cs1⟩ := p
        rw [hrest] at h
        simp only [Option.some.injEq, Prod.mk.injEq] at h
        obtain ⟨_, h2⟩ := h
        subst h2
        rcases List.mem_cons.mp hc with hc1 | hc1
        · exact ⟨t2, inner, hc1⟩
        · exact ih hs1 cs1 hrest hc1

/-- A published snapshot decomposes into the host list and client list
accumulated from the update's targets. -/
theorem syncOnce_decomposition (cfg : Config) (rp : LabelSet → Option LabelSet)
    (nOk rOk : String → Bool) (upd : TargetGroupMap) (st : ServerGroupState)
    (h : syncOnce cfg rp nOk rOk upd = some st) :
    ∃ hs cs, syncTargets cfg rp nOk rOk (updateTargets upd) = some (hs, cs) ∧
      st.Targets = hs ∧ snapshotClients st = cs := by
  unfold syncOnce at h
  cases hst : syncTargets cfg rp nOk rOk (updateTargets upd) with
  | none => rw [hst] at h; exact Option.noConfusion h
  | some p =>
    obtain ⟨hs, cs⟩ := p
    rw [hst] at h
    refine ⟨hs, cs, rfl, ?_, ?_⟩
    · cases hig : cfg.ignoreError with
      | true => rw [hig] at h; simp only [Option.some.injEq] at h; rw [← h]
      | false => rw [hig] at h; simp only [Option.some.injEq] at h; rw [← h]
    · cases hig : cfg.ignoreError with
      | true =>
        rw [hig] at h; simp only [Option.some.injEq] at h; rw [← h]
        simp [snapshotClients]
      | false =>
        rw [hig] at h; simp only [Option.some.injEq] at h; rw [← h]
        simp [snapshotClients]

/-- A reserved-prefixed name is absent from a stripped label set. -/
theorem lsGet_stripReserved (ls : LabelSet) (n : LabelName)
    (hn : strHasPre reservedLabelPfx n = true) :
    lsGet (stripReserved ls) n = none := by
  induction ls with
  | nil => rfl
  | cons p rest ih =>
    by_cases hp : strHasPre reservedLabelPfx p.1 = true
    · simpa [stripReserved, List.filter_cons, hp] using ih
    · have hne : (p.1 == n) = false := by
        cases hq : (p.1 == n) with
        | false => rfl
        | true =>
          have hpn : p.1 = n := eq_of_beq hq
          rw [hpn] at hp
          exact absurd hn hp
      have hpb : strHasPre reservedLabelPfx p.1 = false :=
        Bool.eq_false_iff.mpr hp
      simpa [stripReserved, lsGet, List.filter_cons, List.find?, hpb, hne]
        using ih

/-- When a key is absent from the overriding set, a merged lookup falls back
to the base set. -/
theorem lsGet_merge_of_none (a b : LabelSet) (n : LabelName)
    (hb : lsGet b n = none) :
    lsGet (lsMerge a b) n = lsGet a n := by
  unfold lsMerge
  unfold lsGet at *
  induction b with
  | nil => simp
  | cons p rest ih =>
    cases hq : (p.1 == n) with
    | true => simp [List.find?, hq] at hb
    | false =>
      simp only [List.find?, hq, List.cons_append] at *
      exact ih hb

/-! ## Claim C1: the published target list -/

def rpDrop : LabelSet → Option LabelSet :=
  fun t => if lsGet t "drop" = some "yes" then none else some t

def updC1 : TargetGroupMap :=
  [("foo", [{ Targets := [[(addressLabel, "a:1")],
                          [("drop", "yes"), (addressLabel, "b:1")],
                          [(addressLabel, "a:1")]] }])]

def updDup : TargetGroupMap :=
  [("foo", [{ Targets := [[(addressLabel, "a:1")], [(addressLabel, "a:1")]] }])]

/-- Claim C1 (counterexample): with identity relabeling, an update carrying two
targets that resolve to the same address publishes a target list with two
entries for that address — the list is not deduplicated on resolved address. -/
theorem c1_counterexample :
    (ServerGroupState.Targets <$>
        syncOnce cfgA Option.some (fun _ => true) (fun _ => true) updDup) =
      some ["a:1", "a:1"] ∧
    ((ServerGroupState.Targets <$>
        syncOnce cfgA Option.some (fun _ => true) (fun _ => true) updDup) ==
      some ["a:1"]) = false :=
  ⟨rfl, rfl⟩

/-- Claim C1 (amended, proved): when a reconciliation round publishes a
snapshot, its target list is exactly the ordered list of resolved addresses of
the relabeled, non-dropped targets of the update — a target dropped by
relabeling contributes no entry and no client — but the list is not
deduplicated: each surviving target contributes one entry even when addresses
repeat, and one per-target client is composed per entry. -/
theorem c1_snapshot_target_list (cfg : Config) (rp : LabelSet → Option LabelSet)
    (nOk rOk : String → Bool) (upd : TargetGroupMap) (st : ServerGroupState)
    (h : syncOnce cfg rp nOk rOk upd = some st) :
    st.Targets = (updateTargets upd).filterMap
      (fun t => (rp t).map (fun t2 => (lsGet t2 addressLabel).getD "")) ∧
    (snapshotClients st).length = st.Targets.length := by
  obtain ⟨hs, cs, hst, h1, h2⟩ := syncOnce_decomposition cfg rp nOk rOk upd st h
  obtain ⟨e1, e2⟩ := syncTargets_characterization cfg rp nOk rOk
    (updateTargets upd) hs cs hst
  rw [h1, h2, e1, e2]
  exact ⟨rfl, by rw [e1]⟩

/-- The snapshot `updC1` publishes: the dropped target contributes nothing and
the duplicate address appears twice. -/
def stC1 : ServerGroupState :=
  { Targets := ["a:1", "a:1"]
    apiClient := .multi [.addLabel (.promAPIV1 "http://a:1") [],
                         .addLabel (.promAPIV1 "http://a:1") []] "" }

theorem c1_snapshot_target_list_witness :
    stC1.Targets = ["a:1", "a:1"] ∧
    (snapshotClients stC1).length = stC1.Targets.length :=
  c1_snapshot_target_list cfgA rpDrop (fun _ => true) (fun _ => true) updC1 stC1 (by rfl)

/-! ## Claim C4: client-construction failure aborts the whole round -/

def updBad : TargetGroupMap :=
  [("foo", [{ Targets := [[(addressLabel, "good:9090")],
                          [(addressLabel, "bad host")],
                          [(addressLabel, "ok:9090")]] }])]

/-- Claim C4 (code evaluation at the failing input): a discovery round
containing one target whose client construction fails (here the address
"bad host", whose URL `api.NewClient` rejects) panics: the round publishes
nothing, so the other surviving targets of the round are lost with it and the
process terminates. -/
theorem c4_construction_failure_aborts_round :
    syncOnce cfgA Option.some (fun u => u != "http://bad host") (fun _ => true)
      updBad = none :=
  rfl

/-! ## Claim C6: reserved labels are stripped before attachment -/

/-- Claim C6 (confirmed): every client composed into a published snapshot is a
label-injection wrapper, and its attached label set — the relabeled target's
labels stripped of every reserved-prefixed name, merged with the configured
static labels — maps any reserved-prefixed name that the static labels do not
themselves supply to nothing: reserved discovery labels never reach the
wrapper. -/
theorem c6_reserved_labels_stripped (cfg : Config)
    (rp : LabelSet → Option LabelSet) (nOk rOk : String → Bool)
    (upd : TargetGroupMap) (st : ServerGroupState) (c : APIClient)
    (n : LabelName)
    (h : syncOnce cfg rp nOk rOk upd = some st)
    (hc : c ∈ snapshotClients st)
    (hn : strHasPre reservedLabelPfx n = true)
    (hstat : lsGet cfg.labels n = none) :
    isAddLabel c = true ∧ lsGet (attachedLabels c) n = none := by
  obtain ⟨hs, cs, hst, _, h2⟩ := syncOnce_decomposition cfg rp nOk rOk upd st h
  rw [h2] at hc
  obtain ⟨t2, inner, hc2⟩ := syncTargets_clients_shape cfg rp nOk rOk
    (updateTargets upd) hs cs hst c hc
  subst hc2
  refine ⟨rfl, ?_⟩
  show lsGet (lsMerge (stripReserved t2) cfg.labels) n = none
  rw [lsGet_merge_of_none _ _ _ hstat]
  exact lsGet_stripReserved t2 n hn

def cfg6 : Config :=
  { cfgA with labels := [("static", "s")] }

def upd6 : TargetGroupMap :=
  [("foo", [{ Targets := [[(addressLabel, "a:1"), ("__meta_dc", "x"), ("job", "j")]] }])]

def client6 : APIClient :=
  .addLabel (.promAPIV1 "http://a:1") [("static", "s"), ("job", "j")]

def st6 : ServerGroupState :=
  { Targets := ["a:1"], apiClient := .multi [client6] "" }

theorem c6_reserved_labels_stripped_witness :
    isAddLabel client6 = true ∧ lsGet (attachedLabels client6) "__meta_dc" = none :=
  c6_reserved_labels_stripped cfg6 Option.some (fun _ => true) (fun _ => true)
    upd6 st6 client6 "__meta_dc" (by rfl) (List.Mem.head _) rfl rfl

/-! ## Claim C7: the Ready channel is closed exactly once -/

/-- Once `loaded` is set, no later iteration closes the Ready channel. -/
theorem syncLoop_loaded_never_closes (cfg : Config)
    (rp : LabelSet → Option LabelSet) (nOk rOk : String → Bool)
    (us : List TargetGroupMap) :
    ∀ b ∈ syncLoop cfg rp nOk rOk us true, b = false := by
  induction us with
  | nil => simp [syncLoop]
  | cons u rest ih =>
    cases hu : syncOnce cfg rp nOk rOk u with
    | none => simp [syncLoop, hu]
    | some st =>
      simp only [syncLoop, hu, if_pos]
      intro b hb
      rcases List.mem_cons.mp hb with hb1 | hb1
      · exact hb1
      · exact ih b hb1

/-- Claim C7 (confirmed): over any run of the reconciliation loop starting
unloaded, the close trace of the Ready channel is either empty (no iteration
ever stored a snapshot) or a single close in the first snapshot-storing
iteration followed by no close in every later iteration. -/
theorem c7_ready_closed_exactly_once (cfg : Config)
    (rp : LabelSet → Option LabelSet) (nOk rOk : String → Bool)
    (us : List TargetGroupMap) :
    syncLoop cfg rp nOk rOk us false = [] ∨
    ∃ k, syncLoop cfg rp nOk rOk us false = true :: List.replicate k false := by
  cases us with
  | nil => exact .inl rfl
  | cons u rest =>
    cases hu : syncOnce cfg rp nOk rOk u with
    | none => exact .inl (by simp [syncLoop, hu])
    | some st =>
      refine .inr ⟨(syncLoop cfg rp nOk rOk rest true).length, ?_⟩
      simp only [syncLoop, hu]
      rw [if_neg (by simp : ¬(false = true))]
      congr 1
      exact List.eq_replicate_iff.mpr
        ⟨rfl, syncLoop_loaded_never_closes cfg rp nOk rOk rest⟩

end Promxy
